import Mathlib

/-!
Verification of the address-collection workflow engine: the address-book
Redux slice (src/core/reducers/addressBookSlice.ts), the form hook
(src/hooks/useForm.ts) and the workflow controller in App.tsx, embedded
shallowly. Handlers are modelled as pure functions on an explicit
application state; the asynchronous lookup is passed in as the outcome the
gateway would return, together with a boolean recording whether the fetch
was actually issued.
-/

namespace AddressApp

/-- Raw address entry as it appears in the lookup response `details` array
(the gateway HTTP contract): identifier plus structured postal fields,
without a house number. -/
structure RawAddress where
  id : String
  street : String
  city : String
deriving DecidableEq, Repr

/-- Address candidate after stamping with the submitted house number
(the element type of the `addresses` state in App.tsx). -/
structure Candidate where
  id : String
  street : String
  city : String
  houseNumber : String
deriving DecidableEq, Repr

/-- Committed address record as stored by the address-book slice: a
candidate merged with first and last name. -/
structure Address where
  id : String
  street : String
  city : String
  houseNumber : String
  firstName : String
  lastName : String
deriving DecidableEq, Repr

/-- The `addAddress` reducer of addressBookSlice.ts: if some stored address
has the payload id, the state is returned unchanged; otherwise the payload
is pushed at the end. -/
def addAddress (state : List Address) (payload : Address) : List Address :=
  if state.any (fun address => address.id = payload.id) then state
  else state ++ [payload]

/-- The form field mapping of App.tsx: the five fields passed to useForm. -/
structure FormValues where
  postCode : String
  houseNumber : String
  firstName : String
  lastName : String
  selectedAddress : String
deriving DecidableEq, Repr

/-- Optional per-field overrides: the optional argument of `resetForm`,
where an absent field is `none`. -/
structure FormOverrides where
  postCode : Option String
  houseNumber : Option String
  firstName : Option String
  lastName : Option String
  selectedAddress : Option String
deriving DecidableEq, Repr

/-- Object spread of an overrides record over previous values: a field
present in the overrides wins, an absent field keeps the previous value. -/
def spreadOver (prevValues : FormValues) (o : FormOverrides) : FormValues :=
  { postCode := o.postCode.getD prevValues.postCode
    houseNumber := o.houseNumber.getD prevValues.houseNumber
    firstName := o.firstName.getD prevValues.firstName
    lastName := o.lastName.getD prevValues.lastName
    selectedAddress := o.selectedAddress.getD prevValues.selectedAddress }

/-- A full mapping viewed as an overrides record with every field present
(spreading a complete object). -/
def toOverrides (v : FormValues) : FormOverrides :=
  { postCode := some v.postCode
    houseNumber := some v.houseNumber
    firstName := some v.firstName
    lastName := some v.lastName
    selectedAddress := some v.selectedAddress }

/-- The `resetForm` updater of useForm.ts: the new state is the spread of
`newValues || initialValues` over the previous values. -/
def resetForm (initialValues prevValues : FormValues)
    (newValues : Option FormOverrides) : FormValues :=
  spreadOver prevValues (newValues.getD (toOverrides initialValues))

/-- The initial values App.tsx passes to useForm: every field empty. -/
def initialFormValues : FormValues :=
  { postCode := "", houseNumber := "", firstName := "", lastName := ""
    selectedAddress := "" }

/-- Parsed lookup response body: status, optional errormessage, optional
details array. -/
structure LookupResponse where
  status : String
  errormessage : Option String
  details : Option (List RawAddress)
deriving DecidableEq, Repr

/-- The App component state relevant to the workflow: form values, error
overlay, candidate list, busy flag, and the address-book container. -/
structure AppState where
  values : FormValues
  error : Option String
  addresses : List Candidate
  loading : Bool
  book : List Address
deriving DecidableEq, Repr

/-- Stamping one detail entry with the submitted house number
(`\x7b...address, houseNumber: values.houseNumber\x7d` in App.tsx). -/
def stamp (houseNumber : String) (r : RawAddress) : Candidate :=
  { id := r.id, street := r.street, city := r.city, houseNumber := houseNumber }

/-- The `handleAddressSubmit` handler of App.tsx, run to completion.
`resp` is the outcome the lookup would produce if issued: `Except.error`
for a transport or parse failure, `Except.ok` for a parsed body. The
returned boolean records whether the fetch was issued. The handler first
clears error and addresses, then rejects if postCode or houseNumber is
empty; otherwise it sets the busy flag, maps the response, and clears the
busy flag. -/
def handleAddressSubmit (s : AppState) (resp : Except Unit LookupResponse) :
    AppState × Bool :=
  let s1 : AppState := { s with error := none, addresses := [] }
  if s1.values.postCode = "" ∨ s1.values.houseNumber = "" then
    ({ s1 with error := some "Postcode and house number fields are mandatory!" },
      false)
  else
    let s2 : AppState := { s1 with loading := true }
    let s3 : AppState :=
      match resp with
      | Except.error _ =>
          { s2 with error := some "An error occurred while fetching addresses" }
      | Except.ok data =>
          if data.status = "error" then
            { s2 with error := data.errormessage }
          else
            match data.details with
            | some ds =>
                if ds.length > 0 then
                  { s2 with addresses := ds.map (stamp s2.values.houseNumber) }
                else
                  { s2 with error := some "No addresses found" }
            | none => { s2 with error := some "No addresses found" }
    ({ s3 with loading := false }, true)

/-- Merging the found candidate with first and last name into the payload
committed to the address book. -/
def mergePerson (found : Candidate) (firstName lastName : String) : Address :=
  { id := found.id, street := found.street, city := found.city
    houseNumber := found.houseNumber, firstName := firstName
    lastName := lastName }

/-- The `handlePersonSubmit` handler of App.tsx: clears the error, then
checks names, selection and list non-emptiness, then resolves the
selection; on success commits the merged record, resets the whole form and
clears the candidate list. -/
def handlePersonSubmit (s : AppState) : AppState :=
  let s1 : AppState := { s with error := none }
  if s1.values.firstName = "" ∨ s1.values.lastName = "" then
    { s1 with error := some "First name and last name fields mandatory!" }
  else if s1.values.selectedAddress = "" ∨ s1.addresses.length = 0 then
    { s1 with error := some "No address selected, try to select an address or find one if you haven\x27t" }
  else
    match s1.addresses.find? (fun address => address.id = s1.values.selectedAddress) with
    | none => { s1 with error := some "Selected address not found" }
    | some found =>
        { s1 with
            book := addAddress s1.book
              (mergePerson found s1.values.firstName s1.values.lastName)
            values := resetForm initialFormValues s1.values none
            addresses := [] }

/-- The `handleClearAll` handler of App.tsx: resets the form, clears the
candidate list and the error. -/
def handleClearAll (s : AppState) : AppState :=
  { s with
      values := resetForm initialFormValues s.values none
      addresses := []
      error := none }

/-- The list of identifiers stored in the container. -/
def bookIds (state : List Address) : List String :=
  state.map Address.id

/-- addAddress preserves distinctness of stored identifiers. -/
theorem addAddress_preserves_nodup (state : List Address) (a : Address)
    (h : (bookIds state).Nodup) : (bookIds (addAddress state a)).Nodup := by
  unfold addAddress
  split
  · exact h
  · rename_i hna
    have hnotin : a.id ∉ bookIds state := by
      intro hmem
      apply hna
      rw [List.any_eq_true]
      rcases List.mem_map.mp hmem with ⟨b, hb, hid⟩
      exact ⟨b, hb, by simp [hid]⟩
    simp only [bookIds, List.map_append, List.map_cons, List.map_nil]
    rw [List.nodup_append]
    refine ⟨h, List.nodup_singleton _, ?_⟩
    intro x hx hx1
    simp only [List.mem_singleton] at hx1
    exact hnotin (hx1 ▸ hx)

/-- C1: starting from the empty book, any sequence of addAddress calls
yields a container with pairwise distinct identifiers, and addAddress with
an identifier already present returns the container unchanged. -/
theorem addAddress_id_unique (rs state : List Address) (a : Address)
    (h : a.id ∈ bookIds state) :
    (bookIds (rs.foldl addAddress [])).Nodup ∧ addAddress state a = state := by
  constructor
  · have key : ∀ (l st : List Address), (bookIds st).Nodup →
        (bookIds (l.foldl addAddress st)).Nodup := by
      intro l
      induction l with
      | nil => intro st hst; simpa using hst
      | cons x xs ih =>
          intro st hst
          simp only [List.foldl_cons]
          exact ih _ (addAddress_preserves_nodup st x hst)
    exact key rs [] (by simp [bookIds])
  · unfold addAddress
    rw [if_pos]
    rw [List.any_eq_true]
    rcases List.mem_map.mp h with ⟨b, hb, hid⟩
    exact ⟨b, hb, by simp [hid]⟩

/-- Concrete committed record used for witnesses. -/
def recA : Address :=
  { id := "a1", street := "Teststraat", city := "Antwerpen"
    houseNumber := "17", firstName := "Jane", lastName := "Doe" }

/-- A second record sharing recA's identifier. -/
def recB : Address :=
  { id := "a1", street := "Other", city := "City"
    houseNumber := "3", firstName := "John", lastName := "Roe" }

/-- Witness for C1 at concrete records with a shared identifier. -/
theorem addAddress_id_unique_witness :
    (bookIds ([recA, recB].foldl addAddress [])).Nodup ∧
    addAddress [recA] recB = [recA] :=
  addAddress_id_unique [recA, recB] [recA] recB (by decide)

/-- On a rejected submit (empty postCode or houseNumber) the handler sets
the mandatory-fields error, clears the candidate list, leaves everything
else unchanged and does not fetch. -/
theorem handleAddressSubmit_reject (s : AppState) (resp : Except Unit LookupResponse)
    (h : s.values.postCode = "" ∨ s.values.houseNumber = "") :
    handleAddressSubmit s resp =
      ({ s with error := some "Postcode and house number fields are mandatory!"
                addresses := [] }, false) := by
  simp only [handleAddressSubmit]
  rw [if_pos h]

/-- On a submit with both fields filled, the fetch is issued and the final
state is the mapping of the response, with the busy flag back to false. -/
theorem handleAddressSubmit_fetch (s : AppState) (resp : Except Unit LookupResponse)
    (hp : s.values.postCode ≠ "") (hh : s.values.houseNumber ≠ "") :
    handleAddressSubmit s resp =
      (match resp with
       | Except.error _ =>
          { s with error := some "An error occurred while fetching addresses"
                   addresses := [], loading := false }
       | Except.ok data =>
          if data.status = "error" then
            { s with error := data.errormessage, addresses := [], loading := false }
          else
            match data.details with
            | some ds =>
                if ds.length > 0 then
                  { s with error := none, loading := false
                           addresses := ds.map (stamp s.values.houseNumber) }
                else
                  { s with error := some "No addresses found", addresses := []
                           loading := false }
            | none =>
                { s with error := some "No addresses found", addresses := []
                         loading := false }, true) := by
  have hc : ¬(s.values.postCode = "" ∨ s.values.houseNumber = "") := by
    rintro (hx | hx)
    · exact hp hx
    · exact hh hx
  simp only [handleAddressSubmit]
  rw [if_neg hc]
  rcases resp with e | data
  · rfl
  · by_cases hs : data.status = "error"
    · simp only [hs, if_pos]
    · rcases hd : data.details with _ | ds
      · simp only [if_neg hs, hd]
      · by_cases hl : ds.length > 0
        · simp only [if_neg hs, hd, if_pos hl]
        · simp only [if_neg hs, hd, if_neg hl]

/-- C2: when the lookup resolves with both fields filled, an error status
surfaces the errormessage verbatim, a non-empty details array becomes the
candidate list stamped with the submitted house number, and an empty or
absent details array surfaces the error No addresses found with an empty
candidate list. -/
theorem lookup_response_mapping (s : AppState) (data : LookupResponse)
    (hp : s.values.postCode ≠ "") (hh : s.values.houseNumber ≠ "") :
    (data.status = "error" →
        (handleAddressSubmit s (Except.ok data)).1.error = data.errormessage ∧
        (handleAddressSubmit s (Except.ok data)).1.addresses = []) ∧
    (data.status ≠ "error" → ∀ ds : List RawAddress, data.details = some ds →
        ds ≠ [] →
        (handleAddressSubmit s (Except.ok data)).1.addresses =
          ds.map (stamp s.values.houseNumber) ∧
        (handleAddressSubmit s (Except.ok data)).1.error = none) ∧
    (data.status ≠ "error" → (data.details = none ∨ data.details = some []) →
        (handleAddressSubmit s (Except.ok data)).1.error = some "No addresses found" ∧
        (handleAddressSubmit s (Except.ok data)).1.addresses = []) := by
  rw [handleAddressSubmit_fetch s (Except.ok data) hp hh]
  refine ⟨?_, ?_, ?_⟩
  · intro hs
    simp [hs]
  · intro hs ds hd hne
    have hl : ds.length > 0 := List.length_pos.mpr hne
    simp [hs, hd, hl]
  · intro hs hd
    rcases hd with hd | hd <;> simp [hs, hd]

/-- Concrete pre-submit state with an empty postCode and one prior
candidate. -/
def c3State : AppState :=
  { values := { postCode := "", houseNumber := "17", firstName := ""
                lastName := "", selectedAddress := "" }
    error := none
    addresses := [{ id := "a1", street := "Teststraat", city := "Antwerpen"
                    houseNumber := "17" }]
    loading := false
    book := [] }

/-- C3 counterexample: submitting with an empty postCode sets the
mandatory-fields error but does not leave the candidate list unchanged:
the prior candidate list is cleared even though the preconditions fail. -/
theorem search_reject_keeps_candidates_cex :
    c3State.values.postCode = "" ∧
    (handleAddressSubmit c3State (Except.ok ⟨"ok", none, none⟩)).1.error =
      some "Postcode and house number fields are mandatory!" ∧
    (handleAddressSubmit c3State (Except.ok ⟨"ok", none, none⟩)).1.addresses ≠
      c3State.addresses := by
  refine ⟨rfl, rfl, ?_⟩
  decide

/-- C3 amended: submitting with an empty postCode or houseNumber rejects
the transition with the mandatory-fields error and no lookup; the prior
candidate list is cleared unconditionally before validation, and the form
values, busy flag and address book are unchanged. -/
theorem search_reject_sets_error (s : AppState) (resp : Except Unit LookupResponse)
    (h : s.values.postCode = "" ∨ s.values.houseNumber = "") :
    (handleAddressSubmit s resp).1.error =
      some "Postcode and house number fields are mandatory!" ∧
    (handleAddressSubmit s resp).1.addresses = [] ∧
    (handleAddressSubmit s resp).2 = false ∧
    (handleAddressSubmit s resp).1.values = s.values ∧
    (handleAddressSubmit s resp).1.loading = s.loading ∧
    (handleAddressSubmit s resp).1.book = s.book := by
  rw [handleAddressSubmit_reject s resp h]
  exact ⟨rfl, rfl, rfl, rfl, rfl, rfl⟩

/-- Witness for C3 amended at the concrete rejected state. -/
theorem search_reject_sets_error_witness :
    (handleAddressSubmit c3State (Except.error ())).1.error =
      some "Postcode and house number fields are mandatory!" ∧
    (handleAddressSubmit c3State (Except.error ())).1.addresses = [] ∧
    (handleAddressSubmit c3State (Except.error ())).2 = false ∧
    (handleAddressSubmit c3State (Except.error ())).1.values = c3State.values ∧
    (handleAddressSubmit c3State (Except.error ())).1.loading = c3State.loading ∧
    (handleAddressSubmit c3State (Except.error ())).1.book = c3State.book :=
  search_reject_sets_error c3State (Except.error ()) (Or.inl rfl)

/-- C6: with an empty postCode or houseNumber, no fetch is issued and the
mandatory-fields error is set, whatever the other field holds. -/
theorem search_validation_gates_fetch (s : AppState) (resp : Except Unit LookupResponse)
    (h : s.values.postCode = "" ∨ s.values.houseNumber = "") :
    (handleAddressSubmit s resp).2 = false ∧
    (handleAddressSubmit s resp).1.error =
      some "Postcode and house number fields are mandatory!" := by
  rw [handleAddressSubmit_reject s resp h]
  exact ⟨rfl, rfl⟩

/-- Concrete state with a filled postCode and an empty houseNumber. -/
def c6State : AppState :=
  { values := { postCode := "2000AN", houseNumber := "", firstName := ""
                lastName := "", selectedAddress := "" }
    error := none, addresses := [], loading := false, book := [] }

/-- Witness for C6 at a state where only the houseNumber is empty. -/
theorem search_validation_gates_fetch_witness :
    (handleAddressSubmit c6State (Except.error ())).2 = false ∧
    (handleAddressSubmit c6State (Except.error ())).1.error =
      some "Postcode and house number fields are mandatory!" :=
  search_validation_gates_fetch c6State (Except.error ()) (Or.inr rfl)

/-- Concrete resolving state and response used as the C2 witness, the
Scenario A shape. -/
def c2State : AppState :=
  { values := { postCode := "2000AN", houseNumber := "17", firstName := ""
                lastName := "", selectedAddress := "" }
    error := none, addresses := [], loading := false, book := [] }

/-- Scenario A response body: ok status with one detail entry. -/
def c2Resp : LookupResponse :=
  { status := "ok", errormessage := none
    details := some [{ id := "a1", street := "Teststraat", city := "Antwerpen" }] }

/-- Witness for C2: the Scenario A response yields the stamped candidate
list. -/
theorem lookup_response_mapping_witness :
    (handleAddressSubmit c2State (Except.ok c2Resp)).1.addresses =
      [{ id := "a1", street := "Teststraat", city := "Antwerpen"
         houseNumber := "17" }] ∧
    (handleAddressSubmit c2State (Except.ok c2Resp)).1.error = none :=
  (lookup_response_mapping c2State c2Resp (by decide) (by decide)).2.1
    (by decide) [{ id := "a1", street := "Teststraat", city := "Antwerpen" }]
    rfl (by decide)

/-- Resetting with no argument spreads every initial field over the
previous values, yielding exactly the initial mapping. -/
theorem resetForm_none (init prev : FormValues) :
    resetForm init prev none = init := rfl

/-- Branch lemma: empty first or last name stops the person submit with the
names error. -/
theorem handlePersonSubmit_names (s : AppState)
    (h : s.values.firstName = "" ∨ s.values.lastName = "") :
    handlePersonSubmit s =
      { s with error := some "First name and last name fields mandatory!" } := by
  simp only [handlePersonSubmit]
  rw [if_pos h]

/-- Branch lemma: names filled but empty selection or empty candidate list
stops the person submit with the no-address-selected error. -/
theorem handlePersonSubmit_noSelection (s : AppState)
    (h1 : ¬(s.values.firstName = "" ∨ s.values.lastName = ""))
    (h2 : s.values.selectedAddress = "" ∨ s.addresses.length = 0) :
    handlePersonSubmit s =
      { s with error := some "No address selected, try to select an address or find one if you haven\x27t" } := by
  simp only [handlePersonSubmit]
  rw [if_neg h1, if_pos h2]

/-- Branch lemma: names and selection filled, non-empty list, but the
selection resolves to no candidate: the not-found error. -/
theorem handlePersonSubmit_notFound (s : AppState)
    (h1 : ¬(s.values.firstName = "" ∨ s.values.lastName = ""))
    (h2 : ¬(s.values.selectedAddress = "" ∨ s.addresses.length = 0))
    (h3 : s.addresses.find? (fun address => address.id = s.values.selectedAddress) = none) :
    handlePersonSubmit s = { s with error := some "Selected address not found" } := by
  simp only [handlePersonSubmit]
  rw [if_neg h1, if_neg h2, h3]

/-- Branch lemma: all three checks pass: the merged record is committed,
the whole form is reset and the candidates are cleared. -/
theorem handlePersonSubmit_commit (s : AppState) (found : Candidate)
    (h1 : ¬(s.values.firstName = "" ∨ s.values.lastName = ""))
    (h2 : ¬(s.values.selectedAddress = "" ∨ s.addresses.length = 0))
    (h3 : s.addresses.find? (fun address => address.id = s.values.selectedAddress) =
      some found) :
    handlePersonSubmit s =
      { s with
          error := none
          book := addAddress s.book
            (mergePerson found s.values.firstName s.values.lastName)
          values := initialFormValues
          addresses := [] } := by
  simp only [handlePersonSubmit]
  rw [if_neg h1, if_neg h2, h3]
  rfl

/-- A successful find? needs a non-empty list. -/
theorem find?_some_ne_nil {α : Type} (l : List α) (p : α → Bool) (a : α)
    (h : l.find? p = some a) : l ≠ [] := by
  intro hnil
  rw [hnil] at h
  simp [List.find?] at h

/-- C4: the person submit evaluates its preconditions in order, stopping at
the first failure with exactly the stated error, and commits the merged
record only when all three pass. -/
theorem person_submit_precondition_order (s : AppState) :
    ((s.values.firstName = "" ∨ s.values.lastName = "") →
        handlePersonSubmit s =
          { s with error := some "First name and last name fields mandatory!" }) ∧
    (s.values.firstName ≠ "" → s.values.lastName ≠ "" →
      (s.values.selectedAddress = "" ∨ s.addresses = []) →
        handlePersonSubmit s =
          { s with error := some "No address selected, try to select an address or find one if you haven\x27t" }) ∧
    (s.values.firstName ≠ "" → s.values.lastName ≠ "" →
      s.values.selectedAddress ≠ "" → s.addresses ≠ [] →
      s.addresses.find? (fun address => address.id = s.values.selectedAddress) = none →
        handlePersonSubmit s = { s with error := some "Selected address not found" }) ∧
    (∀ found : Candidate, s.values.firstName ≠ "" → s.values.lastName ≠ "" →
      s.values.selectedAddress ≠ "" →
      s.addresses.find? (fun address => address.id = s.values.selectedAddress) =
        some found →
        handlePersonSubmit s =
          { s with
              error := none
              book := addAddress s.book
                (mergePerson found s.values.firstName s.values.lastName)
              values := initialFormValues
              addresses := [] }) := by
  refine ⟨handlePersonSubmit_names s, ?_, ?_, ?_⟩
  · intro hf hl h
    refine handlePersonSubmit_noSelection s ?_ ?_
    · rintro (hx | hx)
      · exact hf hx
      · exact hl hx
    · rcases h with h | h
      · exact Or.inl h
      · exact Or.inr (by rw [h]; rfl)
  · intro hf hl hsel hne h3
    refine handlePersonSubmit_notFound s ?_ ?_ h3
    · rintro (hx | hx)
      · exact hf hx
      · exact hl hx
    · rintro (hx | hx)
      · exact hsel hx
      · exact hne (List.length_eq_zero.mp hx)
  · intro found hf hl hsel h3
    refine handlePersonSubmit_commit s found ?_ ?_ h3
    · rintro (hx | hx)
      · exact hf hx
      · exact hl hx
    · rintro (hx | hx)
      · exact hsel hx
      · exact find?_some_ne_nil _ _ _ h3 (List.length_eq_zero.mp hx)

/-- Concrete state with empty names used as the C4 witness. -/
def c4State : AppState :=
  { values := { postCode := "2000AN", houseNumber := "17", firstName := ""
                lastName := "Doe", selectedAddress := "a1" }
    error := none
    addresses := [{ id := "a1", street := "Teststraat", city := "Antwerpen"
                    houseNumber := "17" }]
    loading := false
    book := [] }

/-- Witness for C4: with an empty first name the submit stops at check (a)
with the names error. -/
theorem person_submit_precondition_order_witness :
    handlePersonSubmit c4State =
      { c4State with error := some "First name and last name fields mandatory!" } :=
  (person_submit_precondition_order c4State).1 (Or.inl rfl)

/-- C5: whenever any precondition of the person submit fails, the
address-book container is left untouched. -/
theorem person_submit_failure_preserves_book (s : AppState)
    (h : s.values.firstName = "" ∨ s.values.lastName = "" ∨
         s.values.selectedAddress = "" ∨ s.addresses = [] ∨
         s.addresses.find? (fun address => address.id = s.values.selectedAddress) = none) :
    (handlePersonSubmit s).book = s.book := by
  by_cases h1 : s.values.firstName = "" ∨ s.values.lastName = ""
  · rw [handlePersonSubmit_names s h1]
  · by_cases h2 : s.values.selectedAddress = "" ∨ s.addresses.length = 0
    · rw [handlePersonSubmit_noSelection s h1 h2]
    · have h3 : s.addresses.find?
          (fun address => address.id = s.values.selectedAddress) = none := by
        rcases h with h | h | h | h | h
        · exact absurd (Or.inl h) h1
        · exact absurd (Or.inr h) h1
        · exact absurd (Or.inl h) h2
        · exact absurd (Or.inr (by rw [h]; rfl)) h2
        · exact h
      rw [handlePersonSubmit_notFound s h1 h2 h3]

/-- Concrete state whose selection does not resolve in the candidate list,
used as the C5 witness. -/
def c5State : AppState :=
  { values := { postCode := "2000AN", houseNumber := "17", firstName := "Jane"
                lastName := "Doe", selectedAddress := "zz" }
    error := none
    addresses := [{ id := "a1", street := "Teststraat", city := "Antwerpen"
                    houseNumber := "17" }]
    loading := false
    book := [recA] }

/-- Witness for C5: an unresolved selection leaves the book unchanged. -/
theorem person_submit_failure_preserves_book_witness :
    (handlePersonSubmit c5State).book = c5State.book :=
  person_submit_failure_preserves_book c5State
    (Or.inr (Or.inr (Or.inr (Or.inr (by decide)))))

/-- A previous mapping with a non-empty postCode. -/
def c7Prev1 : FormValues :=
  { postCode := "2000AN", houseNumber := "", firstName := "", lastName := ""
    selectedAddress := "" }

/-- A previous mapping differing from c7Prev1 only in the postCode. -/
def c7Prev2 : FormValues :=
  { postCode := "1000BB", houseNumber := "", firstName := "", lastName := ""
    selectedAddress := "" }

/-- An overrides argument supplying only the firstName field. -/
def c7Ov : FormOverrides :=
  { postCode := none, houseNumber := none, firstName := some "Jane"
    lastName := none, selectedAddress := none }

/-- C7 counterexample: with an overrides argument the result of resetForm
is not independent of the pre-call field values: two different previous
mappings give two different results under the same overrides, because
fields absent from the overrides keep their previous values instead of
being replaced. -/
theorem resetForm_not_replacement_cex :
    resetForm initialFormValues c7Prev1 (some c7Ov) ≠
      resetForm initialFormValues c7Prev2 (some c7Ov) := by decide

/-- C7 amended: resetForm with an overrides argument merges it into the
current mapping, each overridden field taking the override value and every
other field keeping its current value; with no argument it replaces every
field with its initial value, so the no-argument reset is independent of
the pre-call values and idempotent. -/
theorem resetForm_merge_semantics (init prev : FormValues) (ov : FormOverrides) :
    resetForm init prev none = init ∧
    resetForm init (resetForm init prev none) none = resetForm init prev none ∧
    (resetForm init prev (some ov)).postCode = ov.postCode.getD prev.postCode ∧
    (resetForm init prev (some ov)).houseNumber = ov.houseNumber.getD prev.houseNumber ∧
    (resetForm init prev (some ov)).firstName = ov.firstName.getD prev.firstName ∧
    (resetForm init prev (some ov)).lastName = ov.lastName.getD prev.lastName ∧
    (resetForm init prev (some ov)).selectedAddress =
      ov.selectedAddress.getD prev.selectedAddress :=
  ⟨rfl, rfl, rfl, rfl, rfl, rfl, rfl⟩

/-- Concrete state about to commit successfully, with a non-empty
postCode, used against C8. -/
def c8State : AppState :=
  { values := { postCode := "2000AN", houseNumber := "17", firstName := "Jane"
                lastName := "Doe", selectedAddress := "a1" }
    error := none
    addresses := [{ id := "a1", street := "Teststraat", city := "Antwerpen"
                    houseNumber := "17" }]
    loading := false
    book := [] }

/-- C8 counterexample: the commit at c8State succeeds (the book grows),
yet the postCode field does not keep its value: the whole form is reset,
search fields included. -/
theorem commit_resets_postcode_cex :
    (handlePersonSubmit c8State).book ≠ c8State.book ∧
    (handlePersonSubmit c8State).values.postCode ≠ c8State.values.postCode := by
  constructor
  · decide
  · decide

/-- C8 amended: after a successful commit the candidate list is cleared
and the entire form mapping, the postCode and houseNumber fields included,
is reset to the initial empty values. -/
theorem commit_full_reset (s : AppState) (found : Candidate)
    (hf : s.values.firstName ≠ "") (hl : s.values.lastName ≠ "")
    (hsel : s.values.selectedAddress ≠ "")
    (h3 : s.addresses.find? (fun address => address.id = s.values.selectedAddress) =
      some found) :
    (handlePersonSubmit s).addresses = [] ∧
    (handlePersonSubmit s).values = initialFormValues := by
  rw [handlePersonSubmit_commit s found ?_ ?_ h3]
  · exact ⟨rfl, rfl⟩
  · rintro (hx | hx)
    · exact hf hx
    · exact hl hx
  · rintro (hx | hx)
    · exact hsel hx
    · exact find?_some_ne_nil _ _ _ h3 (List.length_eq_zero.mp hx)

/-- Witness for C8 amended at the concrete committing state. -/
theorem commit_full_reset_witness :
    (handlePersonSubmit c8State).addresses = [] ∧
    (handlePersonSubmit c8State).values = initialFormValues :=
  commit_full_reset c8State
    { id := "a1", street := "Teststraat", city := "Antwerpen", houseNumber := "17" }
    (by decide) (by decide) (by decide) (by decide)

/-- C9: clear-all, from any state, resets the form to the initial empty
values, clears the candidate list and the error, and leaves the
address-book container exactly as it was. -/
theorem clear_all_frame (s : AppState) :
    handleClearAll s =
      { s with values := initialFormValues, addresses := [], error := none } ∧
    (handleClearAll s).book = s.book ∧
    (handleClearAll s).values = initialFormValues ∧
    (handleClearAll s).addresses = [] ∧
    (handleClearAll s).error = none :=
  ⟨rfl, rfl, rfl, rfl, rfl⟩

/-- Frame lemma: the search submit never touches the form values or the
address-book container, whatever the outcome. -/
theorem handleAddressSubmit_frame (s : AppState) (resp : Except Unit LookupResponse) :
    (handleAddressSubmit s resp).1.values = s.values ∧
    (handleAddressSubmit s resp).1.book = s.book := by
  by_cases h : s.values.postCode = "" ∨ s.values.houseNumber = ""
  · rw [handleAddressSubmit_reject s resp h]
    exact ⟨rfl, rfl⟩
  · have hp : s.values.postCode ≠ "" := fun hx => h (Or.inl hx)
    have hh : s.values.houseNumber ≠ "" := fun hx => h (Or.inr hx)
    rw [handleAddressSubmit_fetch s resp hp hh]
    rcases resp with e | data
    · exact ⟨rfl, rfl⟩
    · dsimp only
      by_cases hs : data.status = "error"
      · rw [if_pos hs]
        exact ⟨rfl, rfl⟩
      · rw [if_neg hs]
        rcases data.details with _ | ds
        · exact ⟨rfl, rfl⟩
        · dsimp only
          by_cases hlen : ds.length > 0
          · rw [if_pos hlen]
            exact ⟨rfl, rfl⟩
          · rw [if_neg hlen]
            exact ⟨rfl, rfl⟩

/-- Concrete state with a selected candidate and filled names, about to
run a second search. -/
def c10State : AppState :=
  { values := { postCode := "2000AN", houseNumber := "17", firstName := "Jane"
                lastName := "Doe", selectedAddress := "a1" }
    error := none
    addresses := [{ id := "a1", street := "Teststraat", city := "Antwerpen"
                    houseNumber := "17" }]
    loading := false
    book := [] }

/-- A resolving response whose details array is empty. -/
def c10EmptyResp : LookupResponse :=
  { status := "ok", errormessage := none, details := some [] }

/-- The state after the second search with an empty result set. -/
def c10After : AppState :=
  (handleAddressSubmit c10State (Except.ok c10EmptyResp)).1

/-- C10 counterexample: the stale selection does survive the new search,
but when the new search produced an empty candidate list the next person
submit neither commits the stale selection nor fails with Selected address
not found: it fails with the no-address-selected error. -/
theorem stale_selection_cex :
    c10After.values.selectedAddress = "a1" ∧
    (handlePersonSubmit c10After).book = c10After.book ∧
    (handlePersonSubmit c10After).error ≠ some "Selected address not found" ∧
    (handlePersonSubmit c10After).error =
      some "No address selected, try to select an address or find one if you haven\x27t" := by
  decide

/-- C10 amended: a search submit never modifies the firstName, lastName or
selectedAddress fields; after it, with non-empty names and a non-empty
stale selection, a person submit commits the re-resolved selection when it
resolves in the new candidate list, fails with Selected address not found
when the new list is non-empty but does not contain it, and fails with the
no-address-selected error, leaving the book unchanged, when the new list
is empty. -/
theorem search_preserves_selection (s : AppState) (resp : Except Unit LookupResponse)
    (hf : s.values.firstName ≠ "") (hl : s.values.lastName ≠ "")
    (hsel : s.values.selectedAddress ≠ "") :
    (handleAddressSubmit s resp).1.values.firstName = s.values.firstName ∧
    (handleAddressSubmit s resp).1.values.lastName = s.values.lastName ∧
    (handleAddressSubmit s resp).1.values.selectedAddress = s.values.selectedAddress ∧
    (∀ found : Candidate,
      (handleAddressSubmit s resp).1.addresses.find?
          (fun address => address.id = s.values.selectedAddress) = some found →
        (handlePersonSubmit (handleAddressSubmit s resp).1).book =
          addAddress (handleAddressSubmit s resp).1.book
            (mergePerson found s.values.firstName s.values.lastName)) ∧
    ((handleAddressSubmit s resp).1.addresses.find?
        (fun address => address.id = s.values.selectedAddress) = none →
      (handleAddressSubmit s resp).1.addresses ≠ [] →
        (handlePersonSubmit (handleAddressSubmit s resp).1).error =
          some "Selected address not found") ∧
    ((handleAddressSubmit s resp).1.addresses = [] →
      (handlePersonSubmit (handleAddressSubmit s resp).1).error =
        some "No address selected, try to select an address or find one if you haven\x27t" ∧
      (handlePersonSubmit (handleAddressSubmit s resp).1).book =
        (handleAddressSubmit s resp).1.book) := by
  obtain ⟨hv, hb⟩ := handleAddressSubmit_frame s resp
  have h1 : ¬((handleAddressSubmit s resp).1.values.firstName = "" ∨
      (handleAddressSubmit s resp).1.values.lastName = "") := by
    rw [hv]
    rintro (hx | hx)
    · exact hf hx
    · exact hl hx
  refine ⟨by rw [hv], by rw [hv], by rw [hv], ?_, ?_, ?_⟩
  · intro found hfind
    simp only [← hv] at hfind
    have h2 : ¬((handleAddressSubmit s resp).1.values.selectedAddress = "" ∨
        (handleAddressSubmit s resp).1.addresses.length = 0) := by
      rintro (hx | hx)
      · rw [hv] at hx
        exact hsel hx
      · exact find?_some_ne_nil _ _ _ hfind (List.length_eq_zero.mp hx)
    rw [handlePersonSubmit_commit _ found h1 h2 hfind]
    rw [hv]
  · intro hfind hne
    simp only [← hv] at hfind
    have h2 : ¬((handleAddressSubmit s resp).1.values.selectedAddress = "" ∨
        (handleAddressSubmit s resp).1.addresses.length = 0) := by
      rintro (hx | hx)
      · rw [hv] at hx
        exact hsel hx
      · exact hne (List.length_eq_zero.mp hx)
    rw [handlePersonSubmit_notFound _ h1 h2 hfind]
  · intro hnil
    rw [handlePersonSubmit_noSelection _ h1 (Or.inr (by rw [hnil]; rfl))]
    exact ⟨rfl, rfl⟩

/-- Concrete state with filled names and a stale selection, about to
search, used as the C10 witness. -/
def c10bState : AppState :=
  { values := { postCode := "2000AN", houseNumber := "17", firstName := "Jane"
                lastName := "Doe", selectedAddress := "a1" }
    error := none, addresses := [], loading := false, book := [] }

/-- A resolving response carrying the candidate the stale selection
re-resolves to. -/
def c10bResp : LookupResponse :=
  { status := "ok", errormessage := none
    details := some [{ id := "a1", street := "Teststraat", city := "Antwerpen" }] }

/-- Witness for C10 amended: after the witness search, the stale selection
re-resolves and the person submit commits the merged record. -/
theorem search_preserves_selection_witness :
    (handlePersonSubmit (handleAddressSubmit c10bState (Except.ok c10bResp)).1).book =
      addAddress (handleAddressSubmit c10bState (Except.ok c10bResp)).1.book
        (mergePerson
          { id := "a1", street := "Teststraat", city := "Antwerpen"
            houseNumber := "17" }
          c10bState.values.firstName c10bState.values.lastName) :=
  ((search_preserves_selection c10bState (Except.ok c10bResp)
      (by decide) (by decide) (by decide)).2.2.2.1)
    { id := "a1", street := "Teststraat", city := "Antwerpen", houseNumber := "17" }
    (by decide)

end AddressApp
